import Mathlib

/-!
Shallow embedding of the Products REST service (`service/models.py`,
`service/routes.py`): the persisted `Products` record, the query layer
(`all`, `find`, `find_by_name`, `find_by_category`, `find_by_availability`),
payload deserialization, and the HTTP endpoint handlers (get, put,
discontinue, favorite, unfavorite, list with filtering / sorting /
pagination).  The relational store is modelled as a list of records with
unique primary keys; timestamps are abstract instants (naturals) and the
current time is an explicit parameter of every mutating handler.
-/

/-- ASCII lowercasing of a single character, modelling how Python's
`str.lower()` acts on the ASCII range (code points 65..90 map to 97..122). -/
def lowerChar (c : Char) : Char :=
  if 65 ≤ c.toNat ∧ c.toNat ≤ 90 then Char.ofNat (c.toNat + 32) else c

/-- The character list of `s.lower()` (model of Python lowercasing over
ASCII payloads). -/
def lowerCodes (s : String) : List Char := s.data.map lowerChar

/-- Whether `needle` is an initial segment of `hay` (character lists). -/
def startsWithChars (hay needle : List Char) : Bool :=
  match hay, needle with
  | _, [] => true
  | [], _ :: _ => false
  | a :: as, b :: bs => a == b && startsWithChars as bs

/-- Whether `needle` occurs as a contiguous segment of the second argument:
the containment test behind SQL `ilike '%pat%'`. -/
def containsChars (needle : List Char) : List Char → Bool
  | [] => startsWithChars [] needle
  | c :: t => startsWithChars (c :: t) needle || containsChars needle t

/-- Case-insensitive substring containment, modelling
`column.ilike (f"%pat%")` from `models.py`. -/
def ilikeContains (field : String) (pat : String) : Bool :=
  containsChars (lowerCodes pat) (lowerCodes field)

/-- The `Products` row of `models.py` (table schema, lines 35-53).
`price` is an abstract numeric value; `created_date` / `updated_date` are
abstract instants. -/
structure Products where
  id : Nat
  name : String
  description : Option String
  price : Int
  image_url : Option String
  category : Option String
  availability : Bool
  favorited : Bool
  discontinued : Bool
  created_date : Nat
  updated_date : Nat
deriving DecidableEq, Repr

deriving instance DecidableEq for Except

/-- `Products.all` (models.py line 148): every row whose `discontinued`
column is false. -/
def Products.all (store : List Products) : List Products :=
  store.filter (fun p => !p.discontinued)

/-- `Products.find` (models.py line 154): primary-key lookup via
`session.get`, returning discontinued rows as well. -/
def Products.find (store : List Products) (by_id : Nat) : Option Products :=
  store.find? (fun p => p.id == by_id)

/-- `Products.find_by_name` (models.py line 160): non-discontinued rows
whose name contains the argument, case-insensitively. -/
def Products.find_by_name (store : List Products) (name : String) : List Products :=
  store.filter (fun p => !p.discontinued && ilikeContains p.name name)

/-- `Products.find_by_category` (models.py line 172): non-discontinued rows
whose category contains the argument case-insensitively; a NULL category
matches nothing (SQL NULL semantics of `ilike`). -/
def Products.find_by_category (store : List Products) (category : String) : List Products :=
  store.filter (fun p =>
    !p.discontinued &&
      (match p.category with
       | none => false
       | some c => ilikeContains c category))

/-- `Products.find_by_availability` (models.py line 188): non-discontinued
rows with the given availability. -/
def Products.find_by_availability (store : List Products) (available : Bool) : List Products :=
  store.filter (fun p => !p.discontinued && p.availability == available)

/-- An update/create payload: a JSON object in which every field of the
record may be present or absent (models.py `deserialize` reads the five
required keys by indexing and the rest via `.get` with defaults). -/
structure ProductPayload where
  name : Option String := none
  description : Option String := none
  price : Option Int := none
  image_url : Option String := none
  category : Option String := none
  availability : Option Bool := none
  discontinued : Option Bool := none
  favorited : Option Bool := none
  created_date : Option Nat := none
  updated_date : Option Nat := none
deriving DecidableEq, Repr

/-- `Products.deserialize` (models.py lines 113-142): the keys `name`,
`description`, `price`, `image_url`, `category` are read by indexing (a
missing one raises `KeyError`, surfaced as a `DataValidationError` naming
the key, in source order); `availability`, `discontinued`, `favorited`
default to `true`/`false`/`false` and the two dates default to the current
time when absent. -/
def Products.deserialize (self : Products) (data : ProductPayload) (now : Nat) :
    Except String Products :=
  match data.name with
  | none => .error "missing name"
  | some nm =>
    match data.description with
    | none => .error "missing description"
    | some ds =>
      match data.price with
      | none => .error "missing price"
      | some pr =>
        match data.image_url with
        | none => .error "missing image_url"
        | some iu =>
          match data.category with
          | none => .error "missing category"
          | some ct =>
            .ok { self with
                  name := nm
                  description := some ds
                  price := pr
                  image_url := some iu
                  category := some ct
                  availability := data.availability.getD true
                  discontinued := data.discontinued.getD false
                  favorited := data.favorited.getD false
                  created_date := data.created_date.getD now
                  updated_date := data.updated_date.getD now }

/-- Committing an in-place mutation of the row with primary key `pid`
(`update()` in models.py): the store holds the new row under that key. -/
def storeUpdate (store : List Products) (pid : Nat) (p' : Products) : List Products :=
  store.map (fun q => if q.id == pid then p' else q)

/-- `ProductResource.get` (routes.py lines 161-174): 404 when the id is
absent or the row is discontinued, otherwise the record. -/
def getProduct (store : List Products) (product_id : Nat) : Except Nat Products :=
  match Products.find store product_id with
  | none => .error 404
  | some product => if product.discontinued then .error 404 else .ok product

/-- `ProductResource.put` (routes.py lines 184-206): find the row (404 when
absent or discontinued), deserialize the payload over it, restore the path
id, commit.  The `DataValidationError` raised by `deserialize` is turned
into an HTTP 400 client error; that mapping lives in `service/common`
(not under `src/`) and is modelled from the spec's error taxonomy
(ValidationError maps to HTTP 400). -/
def putProduct (now : Nat) (store : List Products) (product_id : Nat)
    (data : ProductPayload) : Except Nat Products × List Products :=
  match Products.find store product_id with
  | none => (.error 404, store)
  | some product =>
    if product.discontinued then (.error 404, store)
    else
      match product.deserialize data now with
      | .error _ => (.error 400, store)
      | .ok p1 =>
        let p2 := { p1 with id := product_id }
        (.ok p2, storeUpdate store product_id p2)

/-- A JSON value supplied under the `confirm` key of the discontinue
request body: a boolean, a string, or a number. -/
inductive ConfirmValue where
  | b (v : Bool)
  | s (v : String)
  | num (v : Int)
deriving DecidableEq, Repr

/-- The lowered truthy confirmation strings of routes.py line 371/376. -/
def truthyTokens : List (List Char) :=
  ["true".data, "yes".data, "1".data, "y".data]

/-- Whether a confirmation string is accepted:
`s.lower() in ["true", "yes", "1", "y"]`. -/
def confirmStrTruthy (s : String) : Bool :=
  truthyTokens.contains (lowerCodes s)

/-- The confirmation decision of `DiscontinueProductResource.post`
(routes.py lines 369-378): a supplied query parameter is decided by the
string test alone; only with no query parameter is the JSON body consulted
(boolean taken as is, string via the string test, number via Python
truthiness). -/
def pyConfirmed (confirm_arg : Option String) (confirm_payload : Option ConfirmValue) : Bool :=
  match confirm_arg with
  | some s => confirmStrTruthy s
  | none =>
    match confirm_payload with
    | some (.b v) => v
    | some (.s v) => confirmStrTruthy v
    | some (.num v) => v != 0
    | none => false

/-- The truthiness test of the claim's confirmation-value taxonomy: boolean
true, an accepted string, or a non-zero number. -/
def claimTruthy : ConfirmValue → Bool
  | .b v => v
  | .s v => confirmStrTruthy v
  | .num v => v != 0

/-- The confirm value the handler actually consults: the query parameter
when present (as a string), otherwise the JSON body value. -/
def effectiveConfirm (confirm_arg : Option String)
    (confirm_payload : Option ConfirmValue) : Option ConfirmValue :=
  match confirm_arg with
  | some s => some (.s s)
  | none => confirm_payload

/-- `DiscontinueProductResource.post` (routes.py lines 358-398): reject
with 400 unless confirmed; then 404 when the id is absent or already
discontinued; otherwise set `discontinued := true` and
`availability := false`, commit (stamping `updated_date`), and return the
record. -/
def discontinueProduct (now : Nat) (store : List Products) (product_id : Nat)
    (confirm_arg : Option String) (confirm_payload : Option ConfirmValue) :
    Except Nat Products × List Products :=
  if !(pyConfirmed confirm_arg confirm_payload) then (.error 400, store)
  else
    match Products.find store product_id with
    | none => (.error 404, store)
    | some product =>
      if product.discontinued then (.error 404, store)
      else
        let p' := { product with
                    discontinued := true
                    availability := false
                    updated_date := now }
        (.ok p', storeUpdate store product_id p')

/-- `FavoriteProductResource.put` (routes.py lines 412-427): 404 when the
id is absent or discontinued; commit `favorited := true` only when it is
not already true, else a pure read. -/
def favoriteProduct (now : Nat) (store : List Products) (product_id : Nat) :
    Except Nat Products × List Products :=
  match Products.find store product_id with
  | none => (.error 404, store)
  | some product =>
    if product.discontinued then (.error 404, store)
    else if !product.favorited then
      let p' := { product with favorited := true, updated_date := now }
      (.ok p', storeUpdate store product_id p')
    else (.ok product, store)

/-- `UnfavoriteProductResource.put` (routes.py lines 441-456): 404 when the
id is absent or discontinued; commit `favorited := false` only when it is
currently true, else a pure read. -/
def unfavoriteProduct (now : Nat) (store : List Products) (product_id : Nat) :
    Except Nat Products × List Products :=
  match Products.find store product_id with
  | none => (.error 404, store)
  | some product =>
    if product.discontinued then (.error 404, store)
    else if product.favorited then
      let p' := { product with favorited := false, updated_date := now }
      (.ok p', storeUpdate store product_id p')
    else (.ok product, store)

/-- The case-insensitive sort key of the list endpoint
(`(p.name or "").lower()`, routes.py line 272). -/
def nameSortKey (p : Products) : List Char := lowerCodes p.name

/-- Lexicographic comparison of character lists by code point: the order
Python's `sorted` uses on the lowered name keys. -/
def charsLe : List Char → List Char → Bool
  | [], _ => true
  | _ :: _, [] => false
  | x :: xs, y :: ys =>
    if x.toNat < y.toNat then true
    else if y.toNat < x.toNat then false
    else charsLe xs ys

/-- Name ordering of two products, case-insensitive ascending. -/
def nameLe (p q : Products) : Bool := charsLe (nameSortKey p) (nameSortKey q)

/-- Stable insertion of a product into a name-sorted list: it lands before
the first element it compares less-or-equal to, so an earlier element is
kept before later ones with an equal key. -/
def insertByName (x : Products) : List Products → List Products
  | [] => [x]
  | y :: t => if nameLe x y then x :: y :: t else y :: insertByName x t

/-- `sorted(products, key=lambda p: (p.name or "").lower())`
(routes.py line 272).  Python's `sorted` is a stable sort, and a stable
sort with respect to a given total key preorder is extensionally unique,
so stable insertion sort is that function. -/
def sortByName : List Products → List Products
  | [] => []
  | x :: t => insertByName x (sortByName t)

/-- The pagination slice of routes.py lines 280-282:
`products[start:end]` with `start = (page - 1) * limit` and
`end = start + limit`, over already-normalized `page, limit ≥ 1` (a Python
slice with non-negative bounds is drop-then-take with clamping). -/
def paginate {α : Type} (l : List α) (page limit : Nat) : List α :=
  (l.drop ((page - 1) * limit)).take limit

/-- `page = max(page or 1, 1)` (routes.py line 276) on a parsed integer:
zero and negatives normalize to 1. -/
def normalizePage (page : Int) : Nat := (max page 1).toNat

/-- `if (limit or 0) < 1: limit = 100` (routes.py lines 277-278). -/
def normalizeLimit (limit : Int) : Nat := if limit < 1 then 100 else limit.toNat

/-- The pagination step of the list endpoint (routes.py lines 275-288):
applied only when both `page` and `limit` were supplied, after
normalization. -/
def applyPagination {α : Type} (l : List α) (page limit : Option Int) : List α :=
  match page, limit with
  | some pg, some lim => paginate l (normalizePage pg) (normalizeLimit lim)
  | _, _ => l

/-- Python truthiness of an optional query string (`if category:`):
present and non-empty. -/
def strTruthy : Option String → Bool
  | none => false
  | some s => s != ""

/-- `ProductCollection.get` (routes.py lines 245-293) after argument
parsing: branch on the filters in precedence order (category, then name,
then availability, else all), sort by lowered name, then paginate. -/
def listProducts (store : List Products) (category name : Option String)
    (availability : Option Bool) (page limit : Option Int) : List Products :=
  let products :=
    if strTruthy category then Products.find_by_category store (category.getD "")
    else if strTruthy name then Products.find_by_name store (name.getD "")
    else
      match availability with
      | some b => Products.find_by_availability store b
      | none => Products.all store
  applyPagination (sortByName products) page limit

/-- Value of a digit string (helper for the integer parse model). -/
def digitsVal (l : List Char) : Nat := l.foldl (fun n c => n * 10 + (c.toNat - 48)) 0

/-- Python `int(s)` on a query-parameter string: an optional sign followed
by at least one digit, else a conversion failure. -/
def pyIntParse (s : String) : Option Int :=
  match s.data with
  | [] => none
  | c :: rest =>
    let signed : Int × List Char :=
      if c = '-' then (-1, rest) else if c = '+' then (1, rest) else (1, c :: rest)
    if signed.2 ≠ [] ∧ signed.2.all (fun d => d.isDigit) then
      some (signed.1 * (digitsVal signed.2))
    else none

/-- One `type=int` argument of the request parser declared at routes.py
lines 95-108: an absent argument parses to `none`; a supplied value that
fails integer conversion makes the parser abort the request with HTTP 400
(the documented behavior of the argument-parsing dependency when a
supplied value fails its type conversion and the argument is not marked
ignorable). -/
def parseIntArg : Option String → Except Nat (Option Int)
  | none => .ok none
  | some s =>
    match pyIntParse s with
    | none => .error 400
    | some n => .ok (some n)

/-- The full list endpoint including `page`/`limit` argument parsing:
a conversion failure on either aborts with 400 before any query runs. -/
def listEndpoint (store : List Products) (category name : Option String)
    (availability : Option Bool) (page_raw limit_raw : Option String) :
    Except Nat (List Products) :=
  match parseIntArg page_raw, parseIntArg limit_raw with
  | .ok pg, .ok lim => .ok (listProducts store category name availability pg lim)
  | _, _ => .error 400

/-- The record a successful PUT stores (routes.py lines 199-203 composed
with `deserialize`): the five required keys from the payload, the optional
keys from the payload with the `deserialize` defaults when absent, and the
path id. -/
def mergedRecord (pid : Nat) (data : ProductPayload) (now : Nat)
    (nm ds : String) (pr : Int) (iu ct : String) : Products :=
  { id := pid
    name := nm
    description := some ds
    price := pr
    image_url := some iu
    category := some ct
    availability := data.availability.getD true
    discontinued := data.discontinued.getD false
    favorited := data.favorited.getD false
    created_date := data.created_date.getD now
    updated_date := data.updated_date.getD now }

/-! ### Concrete fixtures for witnesses and counterexamples -/

/-- A sample product row. -/
def wProduct (i : Nat) (nm : String) (disc fav av : Bool) : Products :=
  { id := i, name := nm, description := some "d", price := 10, image_url := some "u",
    category := some "Tools", availability := av, favorited := fav, discontinued := disc,
    created_date := 5, updated_date := 5 }

/-- An active (non-discontinued) product that is favorited and unavailable. -/
def wActive : Products := wProduct 1 "Widget" false true false

/-- A discontinued product. -/
def wDisc : Products := wProduct 2 "Gadget" true false true

/-- A one-row store holding the active product. -/
def wStore : List Products := [wActive]

/-- A one-row store holding the discontinued product. -/
def wStoreD : List Products := [wDisc]

/-- A two-row store with names that sort case-insensitively. -/
def wStore2 : List Products :=
  [wProduct 1 "beta" false false true, wProduct 2 "Alpha" false false true]

/-- A one-row store for the favorite/unfavorite witness. -/
def wStore9 : List Products := [wProduct 3 "gamma" false false true]

/-- The row of `wStore9` after a first favorite call at instant 7. -/
def wFav9 : Products := { wProduct 3 "gamma" false false true with favorited := true, updated_date := 7 }

/-- A PUT payload supplying only a name. -/
def wPayloadNameOnly : ProductPayload := { name := some "NewName" }

/-- A PUT payload supplying exactly the five required keys. -/
def wPayloadFull : ProductPayload :=
  { name := some "N2", description := some "D2", price := some 100,
    image_url := some "U2", category := some "C2" }

/-- The stored record after `putProduct 99 wStore 1 wPayloadFull`. -/
def wAfterPut : Products :=
  { id := 1, name := "N2", description := some "D2", price := 100, image_url := some "U2",
    category := some "C2", availability := true, discontinued := false, favorited := false,
    created_date := 99, updated_date := 99 }

/-! ### Helper lemmas (shared) -/

theorem charsLe_total : ∀ a b : List Char, charsLe a b = true ∨ charsLe b a = true
  | [], _ => Or.inl rfl
  | _ :: _, [] => Or.inr rfl
  | x :: xs, y :: ys => by
    by_cases h1 : x.toNat < y.toNat
    · exact Or.inl (by simp [charsLe, h1])
    · by_cases h2 : y.toNat < x.toNat
      · exact Or.inr (by simp [charsLe, h1, h2])
      · rcases charsLe_total xs ys with h | h
        · exact Or.inl (by simp [charsLe, h1, h2, h])
        · exact Or.inr (by simp [charsLe, h1, h2, h])

theorem charsLe_trans : ∀ a b c : List Char,
    charsLe a b = true → charsLe b c = true → charsLe a c = true
  | [], _, _, _, _ => rfl
  | _ :: _, [], _, h, _ => by simp [charsLe] at h
  | _ :: _, _ :: _, [], _, h => by simp [charsLe] at h
  | x :: xs, y :: ys, z :: zs, h1, h2 => by
    simp only [charsLe] at h1 h2 ⊢
    split_ifs at h1 h2 ⊢ <;>
      first
        | rfl
        | exact absurd h1 (by decide)
        | exact absurd h2 (by decide)
        | (exfalso; omega)
        | exact charsLe_trans xs ys zs h1 h2

theorem nameLe_total (p q : Products) : nameLe p q = true ∨ nameLe q p = true :=
  charsLe_total _ _

theorem nameLe_trans (p q r : Products) :
    nameLe p q = true → nameLe q r = true → nameLe p r = true :=
  charsLe_trans _ _ _

theorem mem_insertByName (z x : Products) :
    ∀ t : List Products, z ∈ insertByName x t → z = x ∨ z ∈ t
  | [], h => by simpa [insertByName] using h
  | y :: t, h => by
    by_cases hxy : nameLe x y = true
    · simp only [insertByName, hxy, if_true] at h
      rcases List.mem_cons.mp h with rfl | h'
      · exact Or.inl rfl
      · exact Or.inr h'
    · simp only [insertByName, hxy, if_false] at h
      rcases List.mem_cons.mp h with rfl | h'
      · exact Or.inr (List.mem_cons_self _ _)
      · rcases mem_insertByName z x t h' with h'' | h''
        · exact Or.inl h''
        · exact Or.inr (List.mem_cons_of_mem _ h'')

theorem pairwise_insertByName (x : Products) :
    ∀ t : List Products, t.Pairwise (fun a b => nameLe a b = true) →
      (insertByName x t).Pairwise (fun a b => nameLe a b = true)
  | [], _ => by simp [insertByName]
  | y :: t, h => by
    rcases List.pairwise_cons.mp h with ⟨hy, ht⟩
    by_cases hxy : nameLe x y = true
    · simp only [insertByName, hxy, if_true]
      refine List.pairwise_cons.mpr ⟨?_, h⟩
      intro z hz
      rcases List.mem_cons.mp hz with rfl | hz'
      · exact hxy
      · exact nameLe_trans x y z hxy (hy z hz')
    · simp only [insertByName, hxy, if_false]
      refine List.pairwise_cons.mpr ⟨?_, pairwise_insertByName x t ht⟩
      intro z hz
      rcases mem_insertByName z x t hz with hzx | hz'
      · rw [hzx]
        rcases nameLe_total x y with h' | h'
        · exact absurd h' hxy
        · exact h'
      · exact hy z hz'

theorem sortByName_pairwise :
    ∀ l : List Products, (sortByName l).Pairwise (fun a b => nameLe a b = true)
  | [] => by simp [sortByName]
  | x :: t => pairwise_insertByName x _ (sortByName_pairwise t)

theorem pairwise_applyPagination {α : Type} (R : α → α → Prop) (l : List α)
    (pg lim : Option Int) (h : l.Pairwise R) : (applyPagination l pg lim).Pairwise R :=
  match pg, lim with
  | some _, some _ =>
    List.Pairwise.sublist ((List.take_sublist _ _).trans (List.drop_sublist _ _)) h
  | none, none => h
  | none, some _ => h
  | some _, none => h

theorem flatten_paginate {α : Type} (l : List α) (limit : Nat) :
    ∀ k, ((List.range k).map (fun i => paginate l (i + 1) limit)).flatten = l.take (k * limit)
  | 0 => by simp
  | k + 1 => by
    rw [List.range_succ, List.map_append, List.flatten_append, flatten_paginate l limit k]
    simp only [List.map_cons, List.map_nil, List.flatten_cons, List.flatten_nil,
      List.append_nil, paginate, Nat.add_sub_cancel]
    rw [Nat.succ_mul, List.take_add]

theorem find_some_id {store : List Products} {pid : Nat} {p : Products}
    (h : Products.find store pid = some p) : p.id = pid := by
  have h' : store.find? (fun q => q.id == pid) = some p := h
  simpa using List.find?_some h'

theorem find_storeUpdate : ∀ (store : List Products) (pid : Nat) (p p' : Products),
    Products.find store pid = some p → p'.id = pid →
    Products.find (storeUpdate store pid p') pid = some p'
  | [], _, _, _, h, _ => by simp [Products.find] at h
  | q :: t, pid, p, p', h, hid => by
    show Products.find ((if q.id == pid then p' else q) :: storeUpdate t pid p') pid = some p'
    by_cases hq : (q.id == pid) = true
    · rw [if_pos hq]
      have hstep : List.find? (fun r => r.id == pid) (p' :: storeUpdate t pid p') = some p' :=
        List.find?_cons_of_pos _ (by simp [hid])
      exact hstep
    · rw [if_neg hq]
      have h' : Products.find t pid = some p := by
        have hcons : Products.find (q :: t) pid = Products.find t pid := by
          show List.find? (fun r => r.id == pid) (q :: t) = List.find? (fun r => r.id == pid) t
          exact List.find?_cons_of_neg _ hq
        rw [hcons] at h
        exact h
      have hstep : List.find? (fun r => r.id == pid) (q :: storeUpdate t pid p')
          = List.find? (fun r => r.id == pid) (storeUpdate t pid p') :=
        List.find?_cons_of_neg _ hq
      show List.find? (fun r => r.id == pid) (q :: storeUpdate t pid p') = some p'
      rw [hstep]
      exact find_storeUpdate t pid p p' h' hid

theorem find_of_mem_nodup : ∀ (store : List Products) (p : Products),
    p ∈ store → store.Pairwise (fun a b => a.id ≠ b.id) →
    Products.find store p.id = some p
  | [], p, h, _ => absurd h (by simp)
  | q :: t, p, hmem, hnd => by
    rcases List.pairwise_cons.mp hnd with ⟨hq, ht⟩
    rcases List.mem_cons.mp hmem with rfl | hmem'
    · simp [Products.find]
    · have hne : q.id ≠ p.id := hq p hmem'
      have ih := find_of_mem_nodup t p hmem' ht
      simpa [Products.find, List.find?_cons_of_neg, hne] using ih

theorem pyConfirmed_eq_effective (ca : Option String) (cp : Option ConfirmValue) :
    pyConfirmed ca cp =
      (match effectiveConfirm ca cp with
       | none => false
       | some v => claimTruthy v) := by
  cases ca with
  | some s => rfl
  | none =>
    cases cp with
    | none => rfl
    | some v => cases v <;> rfl

/-! ### Claim theorems -/

/-- C3: every product with `discontinued = true` is absent from `all()`,
from `find_by_name` for any name, from `find_by_category` for any
category, and from `find_by_availability` for either boolean; `GET
/products/{id}` on its id returns 404; yet the row itself persists in the
store. -/
theorem c3_soft_delete_exclusion (store : List Products) (p : Products)
    (hmem : p ∈ store) (hdisc : p.discontinued = true)
    (hids : store.Pairwise (fun a b => a.id ≠ b.id)) :
    p ∉ Products.all store ∧
    (∀ n, p ∉ Products.find_by_name store n) ∧
    (∀ c, p ∉ Products.find_by_category store c) ∧
    (∀ b, p ∉ Products.find_by_availability store b) ∧
    getProduct store p.id = .error 404 ∧ p ∈ store := by
  refine ⟨?_, ?_, ?_, ?_, ?_, hmem⟩
  · intro h
    have := (List.mem_filter.mp h).2
    simp [hdisc] at this
  · intro n h
    have := (List.mem_filter.mp h).2
    simp [hdisc] at this
  · intro c h
    have := (List.mem_filter.mp h).2
    simp [hdisc] at this
  · intro b h
    have := (List.mem_filter.mp h).2
    simp [hdisc] at this
  · have hf := find_of_mem_nodup store p hmem hids
    simp [getProduct, hf, hdisc]

theorem c3_soft_delete_exclusion_witness :
    wDisc ∉ Products.all wStoreD ∧ getProduct wStoreD wDisc.id = .error 404 :=
  ⟨(c3_soft_delete_exclusion wStoreD wDisc (by decide) (by decide) (by decide)).1,
   (c3_soft_delete_exclusion wStoreD wDisc (by decide) (by decide) (by decide)).2.2.2.2.1⟩

/-- C4: the discontinue endpoint succeeds only when the confirm value it
consults (query first, else body) is truthy — boolean true, one of the
case-insensitive strings "true"/"yes"/"1"/"y", or a non-zero number — and
whenever that value is absent or anything else it returns 400 with the
store unchanged. -/
theorem c4_confirm_gate (now : Nat) (store : List Products) (pid : Nat)
    (ca : Option String) (cp : Option ConfirmValue) :
    ((match effectiveConfirm ca cp with
      | none => True
      | some v => claimTruthy v = false) →
      discontinueProduct now store pid ca cp = (.error 400, store)) ∧
    (∀ p s', discontinueProduct now store pid ca cp = (.ok p, s') →
      ∃ v, effectiveConfirm ca cp = some v ∧ claimTruthy v = true) := by
  have he := pyConfirmed_eq_effective ca cp
  cases heff : effectiveConfirm ca cp with
  | none =>
    rw [heff] at he
    constructor
    · intro _
      simp [discontinueProduct, he]
    · intro p s' h
      simp [discontinueProduct, he] at h
  | some v =>
    rw [heff] at he
    constructor
    · intro hv
      simp [discontinueProduct, he, hv]
    · intro p s' h
      refine ⟨v, rfl, ?_⟩
      by_contra hv
      rw [Bool.not_eq_true] at hv
      simp [discontinueProduct, he, hv] at h

theorem c4_confirm_gate_witness :
    discontinueProduct 0 wStore 1 none none = (.error 400, wStore) :=
  (c4_confirm_gate 0 wStore 1 none none).1 trivial

/-- C5: under a valid confirmation, discontinuing a missing or
already-discontinued product returns 404 with no state change; otherwise
the operation stores the record with `discontinued = true` and
`availability = false` in the same step and returns it. -/
theorem c5_discontinue_transitions (now : Nat) (store : List Products) (pid : Nat)
    (ca : Option String) (cp : Option ConfirmValue)
    (hconf : pyConfirmed ca cp = true) :
    (Products.find store pid = none →
      discontinueProduct now store pid ca cp = (.error 404, store)) ∧
    (∀ p, Products.find store pid = some p → p.discontinued = true →
      discontinueProduct now store pid ca cp = (.error 404, store)) ∧
    (∀ p, Products.find store pid = some p → p.discontinued = false →
      discontinueProduct now store pid ca cp =
        (.ok { p with discontinued := true, availability := false, updated_date := now },
         storeUpdate store pid
           { p with discontinued := true, availability := false, updated_date := now })) := by
  refine ⟨?_, ?_, ?_⟩
  · intro h
    simp [discontinueProduct, hconf, h]
  · intro p hp hd
    simp [discontinueProduct, hconf, hp, hd]
  · intro p hp hd
    simp [discontinueProduct, hconf, hp, hd]

theorem c5_discontinue_transitions_witness :
    pyConfirmed (some "Yes") none = true ∧
    discontinueProduct 9 wStore 1 (some "Yes") none =
      (.ok { wActive with discontinued := true, availability := false, updated_date := 9 },
       storeUpdate wStore 1
         { wActive with discontinued := true, availability := false, updated_date := 9 }) :=
  ⟨by decide,
   (c5_discontinue_transitions 9 wStore 1 (some "Yes") none (by decide)).2.2 wActive
     (by decide) (by decide)⟩

/-- C10: when a `confirm` query parameter is present the JSON body's
`confirm` field is never consulted (the result is identical for every
body), so a non-truthy query confirm together with a truthy body confirm
is rejected with 400 and no state change. -/
theorem c10_query_precedence (now : Nat) (store : List Products) (pid : Nat)
    (s : String) (b1 b2 : Option ConfirmValue) :
    discontinueProduct now store pid (some s) b1
      = discontinueProduct now store pid (some s) b2 ∧
    (confirmStrTruthy s = false →
      ∀ body, discontinueProduct now store pid (some s) body = (.error 400, store)) := by
  constructor
  · rfl
  · intro hs body
    simp [discontinueProduct, pyConfirmed, hs]

theorem c10_query_precedence_witness :
    discontinueProduct 9 wStore 1 (some "false") (some (.b true)) = (.error 400, wStore) :=
  (c10_query_precedence 9 wStore 1 "false" (some (.b true)) none).2 (by decide)
    (some (.b true))

/-- C6: the pagination step is exactly the offset slice
`[(page-1)*limit, page*limit)`; an out-of-range page yields the empty
list rather than an error; and the pages 1..k with a fixed limit flatten
back to the whole sequence (no overlap, no gap) once `k*limit` covers its
length. -/
theorem c6_pagination_partition {α : Type} (l : List α) (page limit k : Nat)
    (hp : 1 ≤ page) (hl : 1 ≤ limit) :
    paginate l page limit = (l.drop ((page - 1) * limit)).take limit ∧
    (l.length ≤ (page - 1) * limit → paginate l page limit = []) ∧
    (l.length ≤ k * limit →
      ((List.range k).map (fun i => paginate l (i + 1) limit)).flatten = l) := by
  refine ⟨rfl, ?_, ?_⟩
  · intro h
    simp [paginate, List.drop_eq_nil_of_le h]
  · intro h
    rw [flatten_paginate l limit k, List.take_of_length_le h]

theorem c6_pagination_partition_witness :
    1 ≤ 2 ∧
    (paginate [10, 20, 30, 40, 50] 2 2 = (([10, 20, 30, 40, 50] : List Nat).drop ((2 - 1) * 2)).take 2 ∧
     (([10, 20, 30, 40, 50] : List Nat).length ≤ (2 - 1) * 2 → paginate [10, 20, 30, 40, 50] 2 2 = []) ∧
     (([10, 20, 30, 40, 50] : List Nat).length ≤ 3 * 2 →
       ((List.range 3).map (fun i => paginate ([10, 20, 30, 40, 50] : List Nat) (i + 1) 2)).flatten
         = [10, 20, 30, 40, 50])) :=
  ⟨by decide, c6_pagination_partition [10, 20, 30, 40, 50] 2 2 3 (by decide) (by decide)⟩

/-- C8: the list endpoint applies `category`, `name`, `availability` as
mutually exclusive alternatives in that precedence order, falling back to
all products, and its result is sorted by name case-insensitively
ascending (also after the page/limit slice, which happens after
sorting). -/
theorem c8_filter_precedence_and_sort (store : List Products)
    (category name : Option String) (availability : Option Bool)
    (page limit : Option Int) :
    (∀ c, category = some c → c ≠ "" →
      listProducts store category name availability page limit
        = applyPagination (sortByName (Products.find_by_category store c)) page limit) ∧
    (strTruthy category = false → ∀ n, name = some n → n ≠ "" →
      listProducts store category name availability page limit
        = applyPagination (sortByName (Products.find_by_name store n)) page limit) ∧
    (strTruthy category = false → strTruthy name = false → ∀ b, availability = some b →
      listProducts store category name availability page limit
        = applyPagination (sortByName (Products.find_by_availability store b)) page limit) ∧
    (strTruthy category = false → strTruthy name = false → availability = none →
      listProducts store category name availability page limit
        = applyPagination (sortByName (Products.all store)) page limit) ∧
    (listProducts store category name availability page limit).Pairwise
      (fun a b => nameLe a b = true) := by
  refine ⟨?_, ?_, ?_, ?_, ?_⟩
  · intro c hc hne
    subst hc
    have ht : strTruthy (some c) = true := by simpa [strTruthy] using hne
    simp [listProducts, ht]
  · intro hcat n hn hne
    subst hn
    have ht : strTruthy (some n) = true := by simpa [strTruthy] using hne
    simp [listProducts, hcat, ht]
  · intro hcat hname b hb
    subst hb
    simp [listProducts, hcat, hname]
  · intro hcat hname hav
    subst hav
    simp [listProducts, hcat, hname]
  · exact pairwise_applyPagination _ _ _ _ (sortByName_pairwise _)

theorem c8_filter_precedence_and_sort_witness :
    listProducts wStore2 (some "Tool") none none none none
      = applyPagination (sortByName (Products.find_by_category wStore2 "Tool")) none none ∧
    (listProducts wStore2 (some "Tool") none none none none).Pairwise
      (fun a b => nameLe a b = true) :=
  ⟨(c8_filter_precedence_and_sort wStore2 (some "Tool") none none none none).1 "Tool" rfl
     (by decide),
   (c8_filter_precedence_and_sort wStore2 (some "Tool") none none none none).2.2.2.2⟩

/-- C9: favorite and unfavorite are idempotent — a second favorite returns
the same favorited record with no further state change, unfavorite of a
non-favorited record is a pure no-op — and both return 404 on an absent or
discontinued id. -/
theorem c9_favorite_idempotent (now1 now2 now3 : Nat) (store : List Products)
    (pid : Nat) (p : Products)
    (hfind : Products.find store pid = some p) (hdisc : p.discontinued = false) :
    (∀ p1 s1, favoriteProduct now1 store pid = (.ok p1, s1) →
      p1.favorited = true ∧ favoriteProduct now2 s1 pid = (.ok p1, s1)) ∧
    (p.favorited = false → unfavoriteProduct now3 store pid = (.ok p, store)) ∧
    (∀ q n, Products.find store q = none →
      favoriteProduct n store q = (.error 404, store) ∧
      unfavoriteProduct n store q = (.error 404, store)) ∧
    (∀ q r n, Products.find store q = some r → r.discontinued = true →
      favoriteProduct n store q = (.error 404, store) ∧
      unfavoriteProduct n store q = (.error 404, store)) := by
  refine ⟨?_, ?_, ?_, ?_⟩
  · intro p1 s1 h
    by_cases hfav : p.favorited = true
    · simp [favoriteProduct, hfind, hdisc, hfav] at h
      obtain ⟨rfl, rfl⟩ := h
      exact ⟨hfav, by simp [favoriteProduct, hfind, hdisc, hfav]⟩
    · rw [Bool.not_eq_true] at hfav
      simp [favoriteProduct, hfind, hdisc, hfav] at h
      obtain ⟨rfl, rfl⟩ := h
      have hid0 : p.id = pid := find_some_id hfind
      have hf2 := find_storeUpdate store pid p
        { p with favorited := true, updated_date := now1 } hfind hid0
      rw [hdisc] at hf2
      refine ⟨rfl, ?_⟩
      simp [favoriteProduct, hf2]
  · intro hfav
    simp [unfavoriteProduct, hfind, hdisc, hfav]
  · intro q n h
    simp [favoriteProduct, unfavoriteProduct, h]
  · intro q r n h hd
    simp [favoriteProduct, unfavoriteProduct, h, hd]

theorem c9_favorite_idempotent_witness :
    wFav9.favorited = true ∧ favoriteProduct 8 [wFav9] 3 = (.ok wFav9, [wFav9]) :=
  (c9_favorite_idempotent 7 8 0 wStore9 3 (wProduct 3 "gamma" false false true)
    (by decide) (by decide)).1 wFav9 [wFav9] (by decide)

/-- C1 counterexample: `wActive` exists and is not discontinued, and the
payload `{name: "NewName"}` supplies a strict subset of its fields, yet
PUT does not succeed with a merged record — it fails with 400 (the
deserializer requires `description`, `price`, `image_url`, `category` as
well) and leaves the store unchanged. -/
theorem c1_partial_update_counterexample :
    Products.find wStore 1 = some wActive ∧ wActive.discontinued = false ∧
    putProduct 99 wStore 1 wPayloadNameOnly = (.error 400, wStore) := by decide

/-- C1 amended: PUT on an existing non-discontinued product requires the
payload to supply `name`, `description`, `price`, `image_url` and
`category` (a missing one yields 400 with no state change); when all five
are present the stored record takes every field from the payload, with the
optional keys falling back to the deserializer defaults — previous values
of unsupplied keys are not retained. -/
theorem c1_put_requires_keys_and_resets (now : Nat) (store : List Products)
    (pid : Nat) (data : ProductPayload) (p : Products)
    (hfind : Products.find store pid = some p) (hdisc : p.discontinued = false) :
    ((data.name = none ∨ data.description = none ∨ data.price = none ∨
      data.image_url = none ∨ data.category = none) →
      putProduct now store pid data = (.error 400, store)) ∧
    (∀ nm ds pr iu ct, data.name = some nm → data.description = some ds →
      data.price = some pr → data.image_url = some iu → data.category = some ct →
      putProduct now store pid data =
        (.ok (mergedRecord pid data now nm ds pr iu ct),
         storeUpdate store pid (mergedRecord pid data now nm ds pr iu ct))) := by
  constructor
  · intro hmiss
    cases hn : data.name <;> cases hd : data.description <;> cases hp : data.price <;>
      cases hi : data.image_url <;> cases hc : data.category <;>
      simp [putProduct, hfind, hdisc, Products.deserialize, hn, hd, hp, hi, hc] <;>
      (rcases hmiss with h | h | h | h | h <;> simp_all)
  · intro nm ds pr iu ct hn hd hp hi hc
    simp [putProduct, hfind, hdisc, Products.deserialize, hn, hd, hp, hi, hc, mergedRecord]

theorem c1_put_requires_keys_and_resets_witness :
    putProduct 99 wStore 1 wPayloadFull =
      (.ok (mergedRecord 1 wPayloadFull 99 "N2" "D2" 100 "U2" "C2"),
       storeUpdate wStore 1 (mergedRecord 1 wPayloadFull 99 "N2" "D2" 100 "U2" "C2")) :=
  (c1_put_requires_keys_and_resets 99 wStore 1 wPayloadFull wActive (by decide)
    (by decide)).2 "N2" "D2" 100 "U2" "C2" rfl rfl rfl rfl rfl

/-- C2 counterexample: a successful PUT whose payload omits `favorited` and
`created_date` resets both — `wActive` had `favorited = true` and
`created_date = 5`, but after the update the stored record has
`favorited = false` and `created_date = 99` (the request instant). -/
theorem c2_frame_counterexample :
    wActive.favorited = true ∧ wActive.created_date = 5 ∧
    putProduct 99 wStore 1 wPayloadFull = (.ok wAfterPut, [wAfterPut]) ∧
    wAfterPut.favorited = false ∧ wAfterPut.created_date = 99 := by decide

/-- C2 amended: after every successful PUT the record's `discontinued`,
`favorited` and `created_date` equal the payload's values when supplied and
the deserializer defaults (false, false, the request instant) when absent —
they are preserved only if the payload restates them. -/
theorem c2_flags_follow_payload (now : Nat) (store : List Products) (pid : Nat)
    (data : ProductPayload) (q : Products) (s' : List Products)
    (h : putProduct now store pid data = (.ok q, s')) :
    q.discontinued = data.discontinued.getD false ∧
    q.favorited = data.favorited.getD false ∧
    q.created_date = data.created_date.getD now := by
  cases hf : Products.find store pid with
  | none => simp [putProduct, hf] at h
  | some p =>
    by_cases hdisc : p.discontinued = true
    · simp [putProduct, hf, hdisc] at h
    · rw [Bool.not_eq_true] at hdisc
      cases hn : data.name <;> cases hd : data.description <;> cases hp : data.price <;>
        cases hi : data.image_url <;> cases hc : data.category <;>
        simp [putProduct, hf, hdisc, Products.deserialize, hn, hd, hp, hi, hc] at h
      obtain ⟨rfl, rfl⟩ := h
      simp

theorem c2_flags_follow_payload_witness :
    wAfterPut.discontinued = wPayloadFull.discontinued.getD false ∧
    wAfterPut.favorited = wPayloadFull.favorited.getD false ∧
    wAfterPut.created_date = wPayloadFull.created_date.getD 99 :=
  c2_flags_follow_payload 99 wStore 1 wPayloadFull wAfterPut [wAfterPut] (by decide)

/-- C7: a non-numeric `page` (or `limit`) is not normalized — the argument
parser aborts the request with HTTP 400 before any query runs (here on the
input of the repository's own `test_get_product_list_with_invalid_pagination`,
which expects 200).  Numeric but out-of-range values are normalized:
`page=0&limit=0` becomes page 1 with the default limit 100 and returns the
whole sorted collection. -/
theorem c7_nonnumeric_page_rejected :
    pyIntParse "abc" = none ∧
    listEndpoint wStore2 none none none (some "abc") (some "0") = .error 400 ∧
    listEndpoint wStore2 none none none (some "0") (some "0")
      = .ok (sortByName (Products.all wStore2)) := by decide
